import Mathlib

/-!
Verification development for the hotel front-desk application
(booking lifecycle and room-availability engine, `src/pages/Bookings.tsx`).

Modelling conventions:
* Timestamps are integers counting minutes; a calendar date `d` corresponds
  to the timestamp `d * 1440` (midnight).  The form submits a date (day
  number) plus a time of day in minutes (the `HH:MM` field), and the
  persisted booking carries the combined timestamp, exactly as
  `handleSubmit` builds `"${date}T${time}:00"` strings.
* The PostgREST filter `check_in_date.lte.<date-string>` casts the bare
  date string to the midnight timestamp, so `checkRoomAvailability`
  compares stored timestamps against `day * 1440`.
* Monetary amounts are integers in a fixed decimal unit (the columns are
  `DECIMAL(10,2)`, an exact fixed-point type; nights and prices multiply
  without rounding, so integer arithmetic is exact).
* Storage failures of the supabase calls are modelled by explicit boolean
  error flags passed to the operations.
-/

namespace TheRoom

/-- Minutes in one day; `new Date(s).getTime()` differences are divided by
`1000*60*60*24` in the source, which is this constant at minute granularity. -/
def minutesPerDay : Int := 1440

/-- Room status enum `room_status` from the schema. -/
inductive RoomStatus where
  | available
  | occupied
  | maintenance
  | cleaning
deriving DecidableEq, Repr

/-- Booking status enum `booking_status` from the schema. -/
inductive BookingStatus where
  | active
  | checked_out
  | cancelled
deriving DecidableEq, Repr

/-- The `rooms` row shape used by the Bookings page (plus the schema fields
relevant to the frame claims). -/
structure Room where
  id : Nat
  room_number : String
  room_type : String
  capacity : Nat
  price_per_night : Int
  floor : Option Int
  status : RoomStatus
deriving DecidableEq, Repr

/-- The `guests` row shape used by the Bookings page. -/
structure Guest where
  id : Nat
  full_name : String
  document_number : String
deriving DecidableEq, Repr

/-- The `bookings` row shape. `check_in` / `check_out` are the
`check_in_date` / `check_out_date` timestamptz columns, in minutes. -/
structure Booking where
  id : Nat
  guest_id : Nat
  room_id : Nat
  check_in : Int
  check_out : Int
  actual_check_out : Option Int
  total_price : Int
  status : BookingStatus
  notes : Option String
deriving DecidableEq, Repr

/-- The relevant contents of the entity store. -/
structure StoreState where
  bookings : List Booking
  rooms : List Room
  guests : List Guest
deriving DecidableEq, Repr

/-- The booking form state (`formData` after zod parsing): ids, a check-in /
check-out calendar date (day number) and time of day (minutes), and notes. -/
structure BookingForm where
  guest_id : Nat
  room_id : Nat
  check_in_date : Int
  check_in_time : Nat
  check_out_date : Int
  check_out_time : Nat
  notes : String
deriving DecidableEq, Repr

/-- Outcome of `handleSubmit`, distinguishing the toast shown to the user:
zod or date validation failure, the availability-conflict toast, the insert
error toast, and success. -/
inductive CreateResult where
  | validationError
  | conflict
  | storageError
  | success
deriving DecidableEq, Repr

/-- Outcome of `handleCheckOut`. -/
inductive CheckOutResult where
  | storageError
  | success
deriving DecidableEq, Repr

/-- `calculateTotalPrice` from `Bookings.tsx`: looks the room up in the
loaded `rooms` list, returns 0 when the room is missing or a date is empty,
otherwise `Math.ceil((checkOut - checkIn) / msPerDay) * price_per_night`.
For integers `d` and a positive divisor, `Math.ceil (d / 1440)` is the
Euclidean quotient `(d + 1439) / 1440`. -/
def calculateTotalPrice (rooms : List Room) (roomId : Nat)
    (checkIn checkOut : Option Int) : Int :=
  match rooms.find? (fun r => r.id == roomId), checkIn, checkOut with
  | some room, some ci, some co =>
      ((co - ci + (minutesPerDay - 1)) / minutesPerDay) * room.price_per_night
  | _, _, _ => 0

/-- The row filter of the availability query: same room, status `active`,
and `check_in_date <= checkOut AND check_out_date >= checkIn`. -/
def overlapsQuery (roomId : Nat) (checkIn checkOut : Int) (b : Booking) : Bool :=
  b.room_id == roomId && b.status == BookingStatus.active &&
    decide (b.check_in ≤ checkOut) && decide (b.check_out ≥ checkIn)

/-- `checkRoomAvailability` from `Bookings.tsx`: selects active bookings of
the room whose interval passes `overlapsQuery` and reports available iff the
result set is empty.  On a storage error it logs and returns `false` — the
same value as "unavailable". -/
def checkRoomAvailability (err : Bool) (bookings : List Booking)
    (roomId : Nat) (checkIn checkOut : Int) : Bool :=
  if err then false
  else (bookings.filter (overlapsQuery roomId checkIn checkOut)).length == 0

/-- `validateDates` from `Bookings.tsx`: rejects a check-in date before
today and a check-out date not strictly after the check-in date.  Dates are
compared at day granularity (the strings carry no time). -/
def validateDates (today checkIn checkOut : Int) : Bool :=
  !(decide (checkIn < today)) && !(decide (checkOut ≤ checkIn))

/-- The zod schema checks that survive the typed embedding: the time fields
match `HH:MM` (hence denote fewer than 1440 minutes) and notes are at most
1000 characters. -/
def zodShapeOk (f : BookingForm) : Bool :=
  decide (f.check_in_time < 1440) && decide (f.check_out_time < 1440) &&
    decide (f.notes.length ≤ 1000)

/-- The booking row `handleSubmit` inserts: timestamps combine the form's
date and time, `actual_check_out` is absent (null), price comes from
`calculateTotalPrice` on the bare dates, status is `active`, and empty
notes become null. -/
def newBooking (f : BookingForm) (newId : Nat) (total : Int) : Booking :=
  { id := newId
    guest_id := f.guest_id
    room_id := f.room_id
    check_in := f.check_in_date * minutesPerDay + f.check_in_time
    check_out := f.check_out_date * minutesPerDay + f.check_out_time
    actual_check_out := none
    total_price := total
    status := BookingStatus.active
    notes := if f.notes = "" then none else some f.notes }

/-- `handleSubmit` from `Bookings.tsx`: zod validation, `validateDates`,
`checkRoomAvailability` (with the bare dates, i.e. midnight timestamps),
price computation, insert of the single new row, then the follow-up update
setting the selected room's status to `occupied`.  `readErr` is a storage
failure of the availability query, `insertErr` of the insert. -/
def handleSubmit (today : Int) (f : BookingForm) (readErr insertErr : Bool)
    (newId : Nat) (s : StoreState) : CreateResult × StoreState :=
  if !zodShapeOk f then (CreateResult.validationError, s)
  else if !validateDates today f.check_in_date f.check_out_date then
    (CreateResult.validationError, s)
  else if !checkRoomAvailability readErr s.bookings f.room_id
      (f.check_in_date * minutesPerDay) (f.check_out_date * minutesPerDay) then
    (CreateResult.conflict, s)
  else
    let total := calculateTotalPrice s.rooms f.room_id
      (some (f.check_in_date * minutesPerDay))
      (some (f.check_out_date * minutesPerDay))
    if insertErr then (CreateResult.storageError, s)
    else
      (CreateResult.success,
        { s with
          bookings := s.bookings ++ [newBooking f newId total]
          rooms := s.rooms.map fun r =>
            if r.id == f.room_id then { r with status := RoomStatus.occupied }
            else r })

/-- `handleCheckOut` from `Bookings.tsx`: updates the row with the booking's
id to `status = checked_out, actual_check_out = now`, then updates the row's
room to `status = cleaning`.  There is no status precondition in the code.
`updErr` is a storage failure of the booking update. -/
def handleCheckOut (now : Int) (updErr : Bool) (b : Booking)
    (s : StoreState) : CheckOutResult × StoreState :=
  if updErr then (CheckOutResult.storageError, s)
  else
    (CheckOutResult.success,
      { s with
        bookings := s.bookings.map fun x =>
          if x.id == b.id then
            { x with status := BookingStatus.checked_out
                     actual_check_out := some now }
          else x
        rooms := s.rooms.map fun r =>
          if r.id == b.room_id then { r with status := RoomStatus.cleaning }
          else r })

/-- The checker's overlap test between two stored bookings, as the claims
phrase it: `b1.check_in_date <= b2.check_out_date AND
b1.check_out_date >= b2.check_in_date`. -/
def overlapTest (b1 b2 : Booking) : Prop :=
  b1.check_in ≤ b2.check_out ∧ b1.check_out ≥ b2.check_in

instance (b1 b2 : Booking) : Decidable (overlapTest b1 b2) :=
  inferInstanceAs (Decidable (_ ∧ _))

/-- The no-double-booking invariant: no two distinct active bookings on the
same room overlap under the checker's test. -/
def noDoubleBooking (s : StoreState) : Prop :=
  ∀ b1 ∈ s.bookings, ∀ b2 ∈ s.bookings,
    b1 ≠ b2 → b1.status = BookingStatus.active →
    b2.status = BookingStatus.active → b1.room_id = b2.room_id →
    ¬ overlapTest b1 b2

instance (s : StoreState) : Decidable (noDoubleBooking s) := by
  unfold noDoubleBooking
  infer_instance

/-! ### Concrete fixtures used by witnesses and counterexamples -/

/-- Room "101" priced at 200.00 per night, available. -/
def room101 : Room :=
  { id := 10, room_number := "101", room_type := "standard", capacity := 2,
    price_per_night := 200, floor := some 1, status := RoomStatus.available }

/-- A sample guest G1. -/
def guest1 : Guest :=
  { id := 100, full_name := "G1", document_number := "D1" }

/-- A store with room 101, guest G1 and no bookings. -/
def store0 : StoreState :=
  { bookings := [], rooms := [room101], guests := [guest1] }

/-- Booking request for room 101, day 1 at 10:00 to day 3 at 12:00. -/
def formA : BookingForm :=
  { guest_id := 100, room_id := 10, check_in_date := 1, check_in_time := 600,
    check_out_date := 3, check_out_time := 720, notes := "" }

/-- Booking request for room 101, day 0 at 14:00 to day 1 at 12:00.  Its
stay overlaps `formA`'s on day 1, yet the availability query compares the
stored timestamps only against the bare dates (midnight), so `formA`'s
booking, starting at 10:00 on day 1, escapes the filter bound
`check_in_date <= day 1 at midnight`. -/
def formB : BookingForm :=
  { guest_id := 100, room_id := 10, check_in_date := 0, check_in_time := 840,
    check_out_date := 1, check_out_time := 720, notes := "" }

/-- Store after successfully creating `formA`'s booking on day 0. -/
def storeA : StoreState := (handleSubmit 0 formA false false 1 store0).2

/-- Store after additionally creating `formB`'s booking. -/
def storeAB : StoreState := (handleSubmit 0 formB false false 2 storeA).2

/-- The booking `handleSubmit` persists for `formA` (2 nights at 200). -/
def bookingA : Booking := newBooking formA 1 400

/-- Room 101 as it stands after `formA`'s booking occupied it. -/
def roomOccupied : Room := { room101 with status := RoomStatus.occupied }

/-- Store after checking `bookingA` out at minute 500. -/
def storeB : StoreState := (handleCheckOut 500 false bookingA storeA).2

/-- `bookingA` as updated by the first check-out. -/
def bookingA1 : Booking :=
  { bookingA with status := BookingStatus.checked_out,
                  actual_check_out := some 500 }

/-- Booking request for room 101, day 2 at 14:00 to day 4 at 12:00, which
genuinely overlaps `bookingA` under the checker's test. -/
def formC : BookingForm :=
  { guest_id := 100, room_id := 10, check_in_date := 2, check_in_time := 840,
    check_out_date := 4, check_out_time := 720, notes := "" }

/-! ### Helper lemmas -/

/-- Unfolding of the availability query's row filter. -/
lemma overlapsQuery_eq_true (roomId : Nat) (ci co : Int) (b : Booking) :
    overlapsQuery roomId ci co b = true ↔
      b.room_id = roomId ∧ b.status = BookingStatus.active ∧
        b.check_in ≤ co ∧ b.check_out ≥ ci := by
  simp [overlapsQuery, and_assoc]

/-- Without a storage error, the checker reports available iff no row passes
the filter. -/
lemma checkRoomAvailability_eq_true (bs : List Booking) (roomId : Nat)
    (ci co : Int) :
    checkRoomAvailability false bs roomId ci co = true ↔
      ∀ b ∈ bs, ¬(b.room_id = roomId ∧ b.status = BookingStatus.active ∧
        b.check_in ≤ co ∧ b.check_out ≥ ci) := by
  simp [checkRoomAvailability, List.length_eq_zero, List.filter_eq_nil_iff,
    overlapsQuery_eq_true]

/-- Unfolding of `validateDates`. -/
lemma validateDates_eq_true (today ci co : Int) :
    validateDates today ci co = true ↔ today ≤ ci ∧ ci < co := by
  simp [validateDates, not_lt, not_le]

/-- The source's `Math.ceil` of an integer minute count divided by a day, as
implemented via Euclidean division, is the mathematical ceiling. -/
lemma ediv_eq_ceil (d : ℤ) : ((d + 1439) / 1440 : ℤ) = ⌈(d : ℚ) / 1440⌉ := by
  have h3 : ((d + 1439) / 1440 - 1) * 1440 < d := by omega
  have h4 : d ≤ ((d + 1439) / 1440) * 1440 := by omega
  rw [eq_comm, Int.ceil_eq_iff]
  constructor
  · rw [lt_div_iff₀ (by norm_num : (0:ℚ) < 1440)]
    have hc : ((((d + 1439) / 1440 : ℤ) : ℚ) - 1) * 1440 =
        ((((d + 1439) / 1440 - 1 : ℤ) : ℚ)) * 1440 := by push_cast; ring
    rw [hc]
    exact_mod_cast h3
  · rw [div_le_iff₀ (by norm_num : (0:ℚ) < 1440)]
    exact_mod_cast h4

end TheRoom

namespace TheRoom

/-! ### Claims -/

/-- C4: `checkRoomAvailability` (absent a storage error) returns false
(unavailable) iff some booking on the room with status `active` satisfies
`check_in_date <= checkOut AND check_out_date >= checkIn`; bookings with
status `cancelled` or `checked_out` never pass the filter, and the checker
returns true when no blocking booking exists. -/
theorem isAvailable_iff_no_active_overlap (bs : List Booking) (roomId : Nat)
    (ci co : Int) :
    (checkRoomAvailability false bs roomId ci co = false ↔
      ∃ b ∈ bs, b.room_id = roomId ∧ b.status = BookingStatus.active ∧
        b.check_in ≤ co ∧ b.check_out ≥ ci) ∧
    (checkRoomAvailability false bs roomId ci co = true ↔
      ¬ ∃ b ∈ bs, b.room_id = roomId ∧ b.status = BookingStatus.active ∧
        b.check_in ≤ co ∧ b.check_out ≥ ci) := by
  constructor
  · rw [← Bool.not_eq_true, checkRoomAvailability_eq_true]
    constructor
    · intro hfalse
      by_contra hne
      exact hfalse fun b hb hP => hne ⟨b, hb, hP⟩
    · rintro ⟨b, hb, hP⟩ hall
      exact hall b hb hP
  · rw [checkRoomAvailability_eq_true]
    constructor
    · rintro h ⟨b, hb, hP⟩
      exact h b hb hP
    · intro h b hb hP
      exact h ⟨b, hb, hP⟩

/-- C8: `calculateTotalPrice` returns `nights * price_per_night` with
`nights` the ceiling of the stay length in whole days when the room is
found and both dates are present, returns 0 when the room is unknown or a
date is missing, and yields 400.00 for a 200.00-per-night room over the
two-day interval 2024-06-01 to 2024-06-03 (2880 minutes). -/
theorem calculateTotalPrice_spec :
    (∀ (rooms : List Room) (roomId : Nat) (ci co : Int) (room : Room),
        rooms.find? (fun r => r.id == roomId) = some room →
        calculateTotalPrice rooms roomId (some ci) (some co) =
          ⌈((co : ℚ) - (ci : ℚ)) / 1440⌉ * room.price_per_night) ∧
    (∀ (rooms : List Room) (roomId : Nat) (ci co : Option Int),
        rooms.find? (fun r => r.id == roomId) = none →
        calculateTotalPrice rooms roomId ci co = 0) ∧
    (∀ (rooms : List Room) (roomId : Nat) (co : Option Int),
        calculateTotalPrice rooms roomId none co = 0) ∧
    (∀ (rooms : List Room) (roomId : Nat) (ci : Option Int),
        calculateTotalPrice rooms roomId ci none = 0) ∧
    calculateTotalPrice [room101] 10 (some 0) (some 2880) = 400 := by
  refine ⟨?_, ?_, ?_, ?_, ?_⟩
  · intro rooms roomId ci co room h
    have hcast : ((co : ℚ) - (ci : ℚ)) = ((co - ci : ℤ) : ℚ) := by
      push_cast; ring
    rw [hcast, ← ediv_eq_ceil]
    norm_num [calculateTotalPrice, h, minutesPerDay]
  · intro rooms roomId ci co h
    cases ci <;> cases co <;> simp [calculateTotalPrice, h]
  · intro rooms roomId co
    cases h : rooms.find? (fun r => r.id == roomId) <;>
      simp [calculateTotalPrice, h]
  · intro rooms roomId ci
    cases h : rooms.find? (fun r => r.id == roomId) <;> cases ci <;>
      simp [calculateTotalPrice, h]
  · decide

/-- Witness for C8 at the example inputs of the spec scenario. -/
theorem calculateTotalPrice_spec_witness :
    calculateTotalPrice [room101] 10 (some 0) (some 2880) =
      ⌈(((2880 : ℤ) : ℚ) - ((0 : ℤ) : ℚ)) / 1440⌉ * room101.price_per_night :=
  calculateTotalPrice_spec.1 [room101] 10 0 2880 room101 (by decide)

/-- Inversion of a successful `handleSubmit`: all the guards passed and the
result is exactly the insert-then-update state. -/
lemma handleSubmit_success_eq (today : Int) (f : BookingForm)
    (readErr insertErr : Bool) (newId : Nat) (s : StoreState)
    (hsucc : (handleSubmit today f readErr insertErr newId s).1 =
      CreateResult.success) :
    zodShapeOk f = true ∧
    validateDates today f.check_in_date f.check_out_date = true ∧
    checkRoomAvailability readErr s.bookings f.room_id
      (f.check_in_date * minutesPerDay) (f.check_out_date * minutesPerDay) =
      true ∧
    insertErr = false ∧
    handleSubmit today f readErr insertErr newId s =
      (CreateResult.success,
        { s with
          bookings := s.bookings ++ [newBooking f newId
            (calculateTotalPrice s.rooms f.room_id
              (some (f.check_in_date * minutesPerDay))
              (some (f.check_out_date * minutesPerDay)))]
          rooms := s.rooms.map fun r =>
            if r.id == f.room_id then { r with status := RoomStatus.occupied }
            else r }) := by
  cases hz : zodShapeOk f
  · simp [handleSubmit, hz] at hsucc
  · cases hv : validateDates today f.check_in_date f.check_out_date
    · simp [handleSubmit, hz, hv] at hsucc
    · cases hav : checkRoomAvailability readErr s.bookings f.room_id
          (f.check_in_date * minutesPerDay) (f.check_out_date * minutesPerDay)
      · simp [handleSubmit, hz, hv, hav] at hsucc
      · cases hins : insertErr
        · exact ⟨rfl, rfl, rfl, rfl, by simp [handleSubmit, hz, hv, hav]⟩
        · simp [handleSubmit, hz, hv, hav, hins] at hsucc

/-- C1: the no-double-booking invariant is reachable-state violated: from a
store with no bookings, two sequentially executed successful CreateBooking
operations leave two distinct active bookings of room 101 whose intervals
overlap under the checker's own test.  The availability query compares
stored timestamps against the requested bare dates (midnight), while the
insert appends the form's times, so `formA`'s booking (check-in day 1,
10:00) escapes `formB`'s check bound `check_in_date <= day 1, 00:00`. -/
theorem doubleBooking_reachable :
    (handleSubmit 0 formA false false 1 store0).1 = CreateResult.success ∧
    (handleSubmit 0 formB false false 2 storeA).1 = CreateResult.success ∧
    ¬ noDoubleBooking storeAB := by decide

/-- C2: when the referenced guest and room exist, the check-in date is not
before today, the check-out date is strictly later, and no active booking
of the room passes the checker's overlap test for the requested interval,
CreateBooking succeeds, appends exactly one booking with status `active`,
`actual_check_out = null` and the computed total price, and sets the
selected room's status to `occupied`. -/
theorem createBooking_success (today : Int) (f : BookingForm) (newId : Nat)
    (s : StoreState) (guest : Guest) (room : Room)
    (hg : guest ∈ s.guests) (hgid : guest.id = f.guest_id)
    (hr : room ∈ s.rooms) (hrid : room.id = f.room_id)
    (hzod : zodShapeOk f = true)
    (hci : today ≤ f.check_in_date)
    (hco : f.check_in_date < f.check_out_date)
    (havail : ∀ b ∈ s.bookings,
      ¬(b.room_id = f.room_id ∧ b.status = BookingStatus.active ∧
        b.check_in ≤ f.check_out_date * minutesPerDay ∧
        b.check_out ≥ f.check_in_date * minutesPerDay)) :
    ∃ nb : Booking,
      (handleSubmit today f false false newId s).1 = CreateResult.success ∧
      (handleSubmit today f false false newId s).2.bookings =
        s.bookings ++ [nb] ∧
      nb.status = BookingStatus.active ∧
      nb.actual_check_out = none ∧
      nb.total_price = calculateTotalPrice s.rooms f.room_id
        (some (f.check_in_date * minutesPerDay))
        (some (f.check_out_date * minutesPerDay)) ∧
      { room with status := RoomStatus.occupied } ∈
        (handleSubmit today f false false newId s).2.rooms := by
  have hv : validateDates today f.check_in_date f.check_out_date = true :=
    (validateDates_eq_true _ _ _).mpr ⟨hci, hco⟩
  have ha : checkRoomAvailability false s.bookings f.room_id
      (f.check_in_date * minutesPerDay) (f.check_out_date * minutesPerDay) =
      true := (checkRoomAvailability_eq_true _ _ _ _).mpr havail
  refine ⟨newBooking f newId (calculateTotalPrice s.rooms f.room_id
    (some (f.check_in_date * minutesPerDay))
    (some (f.check_out_date * minutesPerDay))), ?_, ?_, rfl, rfl, rfl, ?_⟩
  · simp [handleSubmit, hzod, hv, ha]
  · simp [handleSubmit, hzod, hv, ha]
  · have hmem := List.mem_map_of_mem (fun r =>
      if r.id == f.room_id then { r with status := RoomStatus.occupied }
      else r) hr
    simpa [handleSubmit, hzod, hv, ha, hrid] using hmem

/-- Witness for C2: creating `formA`'s booking in the empty store. -/
theorem createBooking_success_witness :
    ∃ nb : Booking,
      (handleSubmit 0 formA false false 1 store0).1 = CreateResult.success ∧
      (handleSubmit 0 formA false false 1 store0).2.bookings =
        store0.bookings ++ [nb] ∧
      nb.status = BookingStatus.active ∧
      nb.actual_check_out = none ∧
      nb.total_price = calculateTotalPrice store0.rooms formA.room_id
        (some (formA.check_in_date * minutesPerDay))
        (some (formA.check_out_date * minutesPerDay)) ∧
      { room101 with status := RoomStatus.occupied } ∈
        (handleSubmit 0 formA false false 1 store0).2.rooms :=
  createBooking_success 0 formA 1 store0 guest1 room101 (by decide)
    (by decide) (by decide) (by decide) (by decide) (by decide) (by decide)
    (by decide)

/-- C3: if some active booking of the requested room passes the checker's
overlap test for the requested interval, CreateBooking fails with the
conflict outcome and leaves the entire store (bookings and all room
statuses) unchanged. -/
theorem createBooking_conflict_no_write (today : Int) (f : BookingForm)
    (insertErr : Bool) (newId : Nat) (s : StoreState) (b : Booking)
    (hzod : zodShapeOk f = true)
    (hci : today ≤ f.check_in_date)
    (hco : f.check_in_date < f.check_out_date)
    (hb : b ∈ s.bookings) (hactive : b.status = BookingStatus.active)
    (hroom : b.room_id = f.room_id)
    (hin : b.check_in ≤ f.check_out_date * minutesPerDay)
    (hout : b.check_out ≥ f.check_in_date * minutesPerDay) :
    handleSubmit today f false insertErr newId s =
      (CreateResult.conflict, s) := by
  have hv : validateDates today f.check_in_date f.check_out_date = true :=
    (validateDates_eq_true _ _ _).mpr ⟨hci, hco⟩
  have ha : checkRoomAvailability false s.bookings f.room_id
      (f.check_in_date * minutesPerDay) (f.check_out_date * minutesPerDay) =
      false := by
    rw [← Bool.not_eq_true, checkRoomAvailability_eq_true]
    intro hall
    exact hall b hb ⟨hroom, hactive, hin, hout⟩
  simp [handleSubmit, hzod, hv, ha]

/-- Witness for C3: `formC` requests room 101 while `bookingA` is active on
an overlapping interval; the submission is rejected and the store kept. -/
theorem createBooking_conflict_no_write_witness :
    handleSubmit 0 formC false false 3 storeA =
      (CreateResult.conflict, storeA) :=
  createBooking_conflict_no_write 0 formC false 3 storeA bookingA
    (by decide) (by decide) (by decide) (by decide) (by decide) (by decide)
    (by decide) (by decide)

/-- C5: checking out an existing active booking succeeds, stores the
booking with status `checked_out` and `actual_check_out` set to the current
time, and sets the associated room's status to `cleaning` — which is not
`available`. -/
theorem checkOut_effects (now : Int) (b : Booking) (room : Room)
    (s : StoreState) (hb : b ∈ s.bookings)
    (hactive : b.status = BookingStatus.active)
    (hr : room ∈ s.rooms) (hrid : room.id = b.room_id) :
    (handleCheckOut now false b s).1 = CheckOutResult.success ∧
    { b with status := BookingStatus.checked_out,
             actual_check_out := some now } ∈
      (handleCheckOut now false b s).2.bookings ∧
    { room with status := RoomStatus.cleaning } ∈
      (handleCheckOut now false b s).2.rooms ∧
    RoomStatus.cleaning ≠ RoomStatus.available := by
  refine ⟨rfl, ?_, ?_, by decide⟩
  · have hmem := List.mem_map_of_mem (fun x =>
      if x.id == b.id then
        { x with status := BookingStatus.checked_out,
                 actual_check_out := some now }
      else x) hb
    simpa [handleCheckOut] using hmem
  · have hmem := List.mem_map_of_mem (fun r =>
      if r.id == b.room_id then { r with status := RoomStatus.cleaning }
      else r) hr
    simpa [handleCheckOut, hrid] using hmem

/-- Witness for C5: checking `bookingA` out of `storeA` at minute 500. -/
theorem checkOut_effects_witness :
    (handleCheckOut 500 false bookingA storeA).1 = CheckOutResult.success ∧
    { bookingA with status := BookingStatus.checked_out,
                    actual_check_out := some 500 } ∈
      (handleCheckOut 500 false bookingA storeA).2.bookings ∧
    { roomOccupied with status := RoomStatus.cleaning } ∈
      (handleCheckOut 500 false bookingA storeA).2.rooms ∧
    RoomStatus.cleaning ≠ RoomStatus.available :=
  checkOut_effects 500 bookingA roomOccupied storeA (by decide) (by decide)
    (by decide) (by decide)

/-- C6 as stated is false: the code has no status guard, so a second
CheckOut on the already-checked-out booking succeeds again (no
InvalidStateError outcome exists) and overwrites `actual_check_out` (500
becomes 900), so the field is not written exactly once. -/
theorem checkOut_twice_counterexample :
    (handleCheckOut 500 false bookingA storeA).1 = CheckOutResult.success ∧
    bookingA1 ∈ storeB.bookings ∧
    (handleCheckOut 900 false bookingA1 storeB).1 = CheckOutResult.success ∧
    { bookingA with status := BookingStatus.checked_out,
                    actual_check_out := some 900 } ∈
      (handleCheckOut 900 false bookingA1 storeB).2.bookings ∧
    bookingA1 ∉ (handleCheckOut 900 false bookingA1 storeB).2.bookings := by
  decide

/-- C6 amended: calling CheckOut twice on the same booking succeeds both
times; the second call leaves the status `checked_out` but overwrites
`actual_check_out` with the second call's time.  Bookings are persisted by
CreateBooking with status `active` and `actual_check_out = null`. -/
theorem checkOut_twice_amended (t1 t2 : Int) (b : Booking) (s : StoreState)
    (hb : b ∈ s.bookings) :
    (handleCheckOut t1 false b s).1 = CheckOutResult.success ∧
    { b with status := BookingStatus.checked_out,
             actual_check_out := some t1 } ∈
      (handleCheckOut t1 false b s).2.bookings ∧
    (handleCheckOut t2 false
      { b with status := BookingStatus.checked_out,
               actual_check_out := some t1 }
      (handleCheckOut t1 false b s).2).1 = CheckOutResult.success ∧
    { b with status := BookingStatus.checked_out,
             actual_check_out := some t2 } ∈
      (handleCheckOut t2 false
        { b with status := BookingStatus.checked_out,
                 actual_check_out := some t1 }
        (handleCheckOut t1 false b s).2).2.bookings ∧
    (∀ (f : BookingForm) (newId : Nat) (total : Int),
      (newBooking f newId total).status = BookingStatus.active ∧
      (newBooking f newId total).actual_check_out = none) := by
  have hb1 : ({ b with status := BookingStatus.checked_out,
                       actual_check_out := some t1 } : Booking) ∈
      (handleCheckOut t1 false b s).2.bookings := by
    have hmem := List.mem_map_of_mem (fun x =>
      if x.id == b.id then
        { x with status := BookingStatus.checked_out,
                 actual_check_out := some t1 }
      else x) hb
    simpa [handleCheckOut] using hmem
  refine ⟨rfl, hb1, rfl, ?_, fun f newId total => ⟨rfl, rfl⟩⟩
  have hmem := List.mem_map_of_mem (fun x =>
    if x.id == ({ b with status := BookingStatus.checked_out,
                         actual_check_out := some t1 } : Booking).id then
      { x with status := BookingStatus.checked_out,
               actual_check_out := some t2 }
    else x) hb1
  simpa [handleCheckOut] using hmem

/-- Witness for C6's amended claim at the concrete double check-out. -/
theorem checkOut_twice_amended_witness :
    (handleCheckOut 500 false bookingA storeA).1 = CheckOutResult.success ∧
    { bookingA with status := BookingStatus.checked_out,
                    actual_check_out := some 500 } ∈
      (handleCheckOut 500 false bookingA storeA).2.bookings ∧
    (handleCheckOut 900 false
      { bookingA with status := BookingStatus.checked_out,
                      actual_check_out := some 500 }
      (handleCheckOut 500 false bookingA storeA).2).1 =
      CheckOutResult.success ∧
    { bookingA with status := BookingStatus.checked_out,
                    actual_check_out := some 900 } ∈
      (handleCheckOut 900 false
        { bookingA with status := BookingStatus.checked_out,
                        actual_check_out := some 500 }
        (handleCheckOut 500 false bookingA storeA).2).2.bookings ∧
    (∀ (f : BookingForm) (newId : Nat) (total : Int),
      (newBooking f newId total).status = BookingStatus.active ∧
      (newBooking f newId total).actual_check_out = none) :=
  checkOut_twice_amended 500 900 bookingA storeA (by decide)

/-- C7 as stated is false: a failed availability read is not surfaced
distinctly from "unavailable" — `checkRoomAvailability` returns the same
value `false` for a storage error over an empty store as for a genuine
overlap, and `handleSubmit` produces the identical conflict outcome in
both situations, so the caller cannot tell them apart. -/
theorem availability_error_counterexample :
    checkRoomAvailability true store0.bookings 10 (2 * minutesPerDay)
        (4 * minutesPerDay) =
      checkRoomAvailability false storeA.bookings 10 (2 * minutesPerDay)
        (4 * minutesPerDay) ∧
    handleSubmit 0 formC true false 3 store0 =
      (CreateResult.conflict, store0) ∧
    handleSubmit 0 formC false false 3 storeA =
      (CreateResult.conflict, storeA) := by
  decide

/-- C7 amended: on a storage error the availability check returns `false`,
the same value as "unavailable", so the caller cannot distinguish the two;
CreateBooking then aborts without any write — it never defaults to
"available" and never reports success. -/
theorem availability_error_aborts (today : Int) (f : BookingForm)
    (insertErr : Bool) (newId : Nat) (s : StoreState) :
    checkRoomAvailability true s.bookings f.room_id
      (f.check_in_date * minutesPerDay) (f.check_out_date * minutesPerDay) =
      false ∧
    (handleSubmit today f true insertErr newId s).1 ≠ CreateResult.success ∧
    (handleSubmit today f true insertErr newId s).2 = s := by
  refine ⟨rfl, ?_⟩
  have key : handleSubmit today f true insertErr newId s =
      (CreateResult.validationError, s) ∨
      handleSubmit today f true insertErr newId s =
      (CreateResult.conflict, s) := by
    cases hz : zodShapeOk f
    · left; simp [handleSubmit, hz]
    · cases hv : validateDates today f.check_in_date f.check_out_date
      · left; simp [handleSubmit, hz, hv]
      · right; simp [handleSubmit, hz, hv, checkRoomAvailability]
  rcases key with h | h <;>
    exact ⟨fun hc => by simp [h] at hc, by rw [h]⟩

/-- C9: provided every room's nightly price is non-negative, a successful
CreateBooking persists its one new booking with a non-negative total
price. -/
theorem persisted_total_price_nonneg (today : Int) (f : BookingForm)
    (readErr insertErr : Bool) (newId : Nat) (s : StoreState)
    (hprice : ∀ r ∈ s.rooms, 0 ≤ r.price_per_night)
    (hsucc : (handleSubmit today f readErr insertErr newId s).1 =
      CreateResult.success) :
    ∃ nb : Booking,
      (handleSubmit today f readErr insertErr newId s).2.bookings =
        s.bookings ++ [nb] ∧ 0 ≤ nb.total_price := by
  obtain ⟨hz, hv, hav, hins, hres⟩ :=
    handleSubmit_success_eq today f readErr insertErr newId s hsucc
  refine ⟨newBooking f newId (calculateTotalPrice s.rooms f.room_id
    (some (f.check_in_date * minutesPerDay))
    (some (f.check_out_date * minutesPerDay))), ?_, ?_⟩
  · rw [hres]
  · show 0 ≤ calculateTotalPrice s.rooms f.room_id
      (some (f.check_in_date * minutesPerDay))
      (some (f.check_out_date * minutesPerDay))
    rcases hfind : s.rooms.find? (fun r => r.id == f.room_id) with _ | room
    · simp [calculateTotalPrice, hfind]
    · have hroom : room ∈ s.rooms := List.mem_of_find?_eq_some hfind
      have hp := hprice room hroom
      have hico : f.check_in_date < f.check_out_date :=
        ((validateDates_eq_true _ _ _).mp hv).2
      have hnum : 0 ≤ f.check_out_date * 1440 - f.check_in_date * 1440 +
          (1440 - 1) := by omega
      have hnights : 0 ≤ (f.check_out_date * 1440 - f.check_in_date * 1440 +
          (1440 - 1)) / 1440 := Int.ediv_nonneg hnum (by norm_num)
      simp only [calculateTotalPrice, hfind, minutesPerDay]
      exact mul_nonneg hnights hp

/-- Witness for C9 at the concrete successful creation of `formA`. -/
theorem persisted_total_price_nonneg_witness :
    ∃ nb : Booking,
      (handleSubmit 0 formA false false 1 store0).2.bookings =
        store0.bookings ++ [nb] ∧ 0 ≤ nb.total_price :=
  persisted_total_price_nonneg 0 formA false false 1 store0 (by decide)
    (by decide)

/-- C10: a successful CreateBooking inserts exactly one booking row at the
end, keeps every guest record and every pre-existing booking, and rewrites
the room list so that only the selected room changes and only in its
status field (set to `occupied`); rooms with a different id are kept
verbatim. -/
theorem createBooking_frame (today : Int) (f : BookingForm)
    (readErr insertErr : Bool) (newId : Nat) (s : StoreState)
    (hsucc : (handleSubmit today f readErr insertErr newId s).1 =
      CreateResult.success) :
    ∃ nb : Booking,
      (handleSubmit today f readErr insertErr newId s).2.guests = s.guests ∧
      (handleSubmit today f readErr insertErr newId s).2.bookings =
        s.bookings ++ [nb] ∧
      (handleSubmit today f readErr insertErr newId s).2.rooms =
        s.rooms.map (fun r =>
          if r.id = f.room_id then { r with status := RoomStatus.occupied }
          else r) ∧
      ∀ r ∈ s.rooms, r.id ≠ f.room_id →
        r ∈ (handleSubmit today f readErr insertErr newId s).2.rooms := by
  obtain ⟨hz, hv, hav, hins, hres⟩ :=
    handleSubmit_success_eq today f readErr insertErr newId s hsucc
  refine ⟨newBooking f newId (calculateTotalPrice s.rooms f.room_id
    (some (f.check_in_date * minutesPerDay))
    (some (f.check_out_date * minutesPerDay))), ?_, ?_, ?_, ?_⟩
  · rw [hres]
  · rw [hres]
  · rw [hres]
    simp only [beq_iff_eq]
  · intro r hr hne
    rw [hres]
    have hmem := List.mem_map_of_mem (fun r =>
      if r.id == f.room_id then { r with status := RoomStatus.occupied }
      else r) hr
    simpa [hne] using hmem

/-- Witness for C10 at the concrete successful creation of `formA`. -/
theorem createBooking_frame_witness :
    ∃ nb : Booking,
      (handleSubmit 0 formA false false 1 store0).2.guests = store0.guests ∧
      (handleSubmit 0 formA false false 1 store0).2.bookings =
        store0.bookings ++ [nb] ∧
      (handleSubmit 0 formA false false 1 store0).2.rooms =
        store0.rooms.map (fun r =>
          if r.id = formA.room_id then { r with status := RoomStatus.occupied }
          else r) ∧
      ∀ r ∈ store0.rooms, r.id ≠ formA.room_id →
        r ∈ (handleSubmit 0 formA false false 1 store0).2.rooms :=
  createBooking_frame 0 formA false false 1 store0 (by decide)

end TheRoom
